import Mathlib

/-!
Formal model of `full-pipeline-demo-poly-pixels-ml-poly.py`, a one-off
geospatial ML pipeline script: it loads a satellite image and ground-truth
building polygons, rasterizes the polygons into a training mask, trains a
pixel classifier, thresholds the predicted probability mask, vectorizes the
binary mask back into polygons, and scores the round trip.

The script's own logic is embedded shallowly: pure Python fragments become
Lean functions over `List`, `ℚ` and function-valued arrays; calls into
external libraries (cv2, numpy, shapely) are modelled by explicit parameters
capturing the structure of the library's output that the script relies on.
-/

set_option autoImplicit false

namespace DstlPipeline

/-! ### Vectorization: `mask_to_polygons` (source lines 134-171)

`cv2.findContours` (line 136) returns a list of contours together with a
hierarchy array whose fourth column is the parent index (`-1` for no
parent).  `cv2.approxPolyDP` (line 140) simplifies each contour and
`cv2.contourArea` measures it.  We model the list of approximated contours
directly: each carries its point list and its `cv2.contourArea` value, and
the hierarchy is the list of parent indices (`hierarchy[0][idx][3]`). -/

/-- An approximated contour: its polyline points (`cnt[:, 0, :]`) and its
`cv2.contourArea` measure. -/
structure Contour where
  points : List (Int × Int)
  area : ℚ
deriving Repr, DecidableEq

/-- A shapely `Polygon(shell=..., holes=...)` as built on source line 158. -/
structure PolyG where
  shell : List (Int × Int)
  holes : List (List (Int × Int))
deriving Repr, DecidableEq

/-- A shapely geometry as far as `mask_to_polygons` distinguishes it: either
a bare `Polygon` or a `MultiPolygon` (the two cases the source's
`buffer(0)` fix on lines 165-170 discriminates via `.type`). -/
inductive Geometry
  | poly (p : PolyG)
  | multi (ps : List PolyG)
deriving Repr, DecidableEq

/-- Whether a geometry is a `MultiPolygon`. -/
def Geometry.isMulti : Geometry → Bool
  | .poly _ => false
  | .multi _ => true

/-- Indices added to `child_contours` by the loop on source lines 149-152:
those whose hierarchy entry has `parent_idx != -1`. -/
def child_contours (hierarchy : List Int) : List Nat :=
  (List.range hierarchy.length).filter (fun idx => hierarchy.getD idx (-1) != -1)

/-- Contours collected in `cnt_children[parent]` by the same loop: the
contours (in index order) whose hierarchy entry names `parent` as parent.
A `Nat` parent index is never `-1`, so the loop's guard is subsumed. -/
def cnt_children (contours : List Contour) (hierarchy : List Int) (parent : Nat) :
    List Contour :=
  ((List.range hierarchy.length).filter
      (fun idx => hierarchy.getD idx (-1) == (parent : Int))).filterMap
    (fun idx => contours[idx]?)

/-- Indices that pass the shell filter of the loop on source lines 155-156:
not a child contour, and `cv2.contourArea(cnt) >= min_area`. -/
def shell_indices (contours : List Contour) (hierarchy : List Int) (min_area : ℚ) :
    List Nat :=
  (List.range contours.length).filter
    (fun idx => !decide (idx ∈ child_contours hierarchy)
      && decide (min_area ≤ (((contours[idx]?).map Contour.area).getD 0)))

/-- The `Polygon` built for shell index `idx` on source lines 158-161: shell
from the contour's points, holes from the children of `idx` whose area is at
least `min_area`. -/
def polygon_for (contours : List Contour) (hierarchy : List Int) (min_area : ℚ)
    (idx : Nat) : PolyG :=
  { shell := ((contours[idx]?).map Contour.points).getD []
    holes := ((cnt_children contours hierarchy idx).filter
        (fun c => decide (min_area ≤ c.area))).map Contour.points }

/-- The `all_polygons` list accumulated on source lines 154-162. -/
def all_polygons (contours : List Contour) (hierarchy : List Int) (min_area : ℚ) :
    List PolyG :=
  (shell_indices contours hierarchy min_area).map
    (polygon_for contours hierarchy min_area)

/-- The function `mask_to_polygons` (source lines 134-171), starting from the
`cv2.findContours` / `cv2.approxPolyDP` output (`contours` with areas,
`hierarchy` of parent indices).  The shapely validity test and the
`buffer(0)` repair are library calls, modelled by the parameters
`is_valid` and `buffer0`; `min_area` defaults to `10` as in the source
(`min_area=10.`). -/
def mask_to_polygons (contours : List Contour) (hierarchy : List Int)
    (is_valid : List PolyG → Bool) (buffer0 : List PolyG → Geometry)
    (min_area : ℚ := 10) : Geometry :=
  if contours.isEmpty then .multi []
  else
    let polys := all_polygons contours hierarchy min_area
    if is_valid polys then .multi polys
    else
      match buffer0 polys with
      | .poly p => .multi [p]
      | .multi ps => .multi ps

/-! ### Pixel-level Jaccard (source lines 127-130)

`pred_binary_mask` and `train_mask` are flat binary pixel arrays of the
same shape; we model each as a `List Bool` and the numpy elementwise
`&`/`~`/`.sum()` combination by `zipWith` and `countP`. -/

/-- True positives `(pred_binary_mask & train_mask).sum()` (source line 127). -/
def tp_count (pred truth : List Bool) : Nat :=
  (pred.zipWith (fun a b => a && b) truth).countP id

/-- False positives `(pred_binary_mask & ~train_mask).sum()` (source line 128). -/
def fp_count (pred truth : List Bool) : Nat :=
  (pred.zipWith (fun a b => a && !b) truth).countP id

/-- False negatives `(~pred_binary_mask & train_mask).sum()` (source line 129). -/
def fn_count (pred truth : List Bool) : Nat :=
  (pred.zipWith (fun a b => !a && b) truth).countP id

/-- The printed score `tp / (tp + fp + fn)` (source line 130). -/
def pixel_jaccard (pred truth : List Bool) : ℚ :=
  (tp_count pred truth : ℚ) / ((tp_count pred truth + fp_count pred truth + fn_count pred truth : Nat) : ℚ)

/-- Size of the intersection `|pred AND truth|` of the two masks. -/
def intersection_count (pred truth : List Bool) : Nat :=
  (pred.zipWith (fun a b => a && b) truth).countP id

/-- Size of the union `|pred OR truth|` of the two masks. -/
def union_count (pred truth : List Bool) : Nat :=
  (pred.zipWith (fun a b => a || b) truth).countP id

/-- Intersection-over-union of the two masks. -/
def iou (pred truth : List Bool) : ℚ :=
  (intersection_count pred truth : ℚ) / (union_count pred truth : ℚ)

/-! ### Thresholding (source lines 121-122)

`pred_mask` is a two-dimensional array of predicted probabilities; the
script sets `threshold = 0.3` and takes `pred_mask >= threshold`
elementwise.  Probabilities are modelled as rationals. -/

/-- The hardcoded `threshold = 0.3` (source line 121). -/
def threshold : ℚ := 3 / 10

/-- The elementwise comparison `pred_binary_mask = pred_mask >= threshold`
(source line 122). -/
def pred_binary_mask (pred_mask : Nat → Nat → ℚ) : Nat → Nat → Bool :=
  fun i j => decide (pred_mask i j ≥ threshold)

/-! ### Rasterization: `mask_for_polygons` (source lines 56-66)

The mask is a `uint8` image of shape `im_size`, modelled as a function from
pixel coordinates to `Nat`.  `cv2.fillPoly(img, rings, v)` paints the pixels
covered by each ring with `v`; which pixels a ring covers is the library's
rasterization, modelled by giving each polygon its exterior ring's pixel
coverage and one coverage per interior ring. -/

/-- A shapely polygon as `mask_for_polygons` consumes it: the rasterized
pixel coverage of its exterior ring and of each of its interior rings. -/
structure RasterPoly where
  exteriorCov : Int × Int → Bool
  interiorCovs : List (Int × Int → Bool)

/-- Model of `cv2.fillPoly(img, regions, value)`: pixels covered by some
region take `value`, all others keep their previous content. -/
def fillPoly (img : Int × Int → Nat) (regions : List (Int × Int → Bool))
    (value : Nat) : Int × Int → Nat :=
  fun px => if regions.any (fun r => r px) then value else img px

/-- The function `mask_for_polygons` (source lines 56-66): start from
`np.zeros(im_size, np.uint8)`, return it unchanged for an empty collection,
otherwise fill all exterior rings with `1` and then all interior rings
with `0`. -/
def mask_for_polygons (polygons : List RasterPoly) : Int × Int → Nat :=
  let img_mask : Int × Int → Nat := fun _ => 0
  if polygons.isEmpty then img_mask
  else
    let exteriors := polygons.map RasterPoly.exteriorCov
    let interiors := (polygons.map RasterPoly.interiorCovs).flatten
    fillPoly (fillPoly img_mask exteriors 1) interiors 0

/-! ### Display helper: `scale_percentile` (source lines 73-82)

The input is a `w × h × d` array; per channel `d` the script subtracts the
1st percentile `mins` and divides by `maxs = p99 - mins`, then clips to
`[0, 1]`.  Entries are modelled as rationals indexed by `(i, j, d)`; the
two `np.percentile` library calls are modelled by the parameters `mins`
and `p99` (one value per channel). -/

/-- Elementwise `matrix.clip(0, 1)` (source line 81). -/
def clip01 (x : ℚ) : ℚ := min (max x 0) 1

/-- The function `scale_percentile` (source lines 73-82) on entry
`(i, j, d)`, with the channelwise percentiles `mins = np.percentile(., 1)`
and `p99 = np.percentile(., 99)` supplied by the library. -/
def scale_percentile (matrix : Nat × Nat × Nat → ℚ) (mins p99 : Nat → ℚ) :
    Nat × Nat × Nat → ℚ :=
  fun idx =>
    let maxs : Nat → ℚ := fun d => p99 d - mins d
    clip01 ((matrix idx - mins idx.2.2) / maxs idx.2.2)

/-! ### Loading stage and error propagation (source lines 19-52)

The script hardcodes the image id and class, loops over the two CSV files
keeping the first matching row, reads the image, and computes scalers.  A
missing file raises at `open`, a malformed WKT field raises inside
`wkt.loads` (line 33), a missing grid row leaves `x_max = None` and raises
inside `get_scalers` (line 46), and a missing polygon row leaves
`train_polygons = None` and raises inside `shapely.affinity.scale`
(line 51).  We model this prefix of the script as an `Except` computation:
`none` input files model file-not-found, and the `loads` parameter models
`shapely.wkt.loads`, returning `.error` on malformed WKT.  There is no
handler anywhere, so every error becomes the script's result. -/

/-- The hardcoded image id (source line 19). -/
def IM_ID : String := "6120_2_2"

/-- The hardcoded class `'1'  # buildings` (source line 20). -/
def POLY_TYPE : String := "1"

/-- A parsed row of `grid_sizes.csv`: `(_im_id, _x, _y)`. -/
structure GridRow where
  im_id : String
  x : ℚ
  y : ℚ
deriving Repr, DecidableEq

/-- A row of `train_wkt_v4.csv`: `(_im_id, _poly_type, _poly)` with the
polygon field still raw WKT text. -/
structure WktRow where
  im_id : String
  poly_type : String
  poly : String
deriving Repr, DecidableEq

/-- Model of `open(path)`: a missing file (`none`) raises
`FileNotFoundError`, which nothing catches. -/
def open_file {α : Type} : Option α → Except String α
  | none => .error "FileNotFoundError"
  | some a => .ok a

/-- The grid-size loop (source lines 23-27): the first row for `IM_ID`
yields `(x_max, y_min)`; with no such row both stay `None`. -/
def load_grid_size (rows : List GridRow) : Option (ℚ × ℚ) :=
  (rows.find? (fun r => r.im_id == IM_ID)).map (fun r => (r.x, r.y))

/-- The training-polygon loop (source lines 30-34): the first row for
`IM_ID` and `POLY_TYPE` is passed to `wkt.loads`; with no such row
`train_polygons` stays `None`.  `loads` models `shapely.wkt.loads`. -/
def load_train_polygons {P : Type} (rows : List WktRow)
    (loads : String → Except String P) : Option (Except String P) :=
  (rows.find? (fun r => r.im_id == IM_ID && r.poly_type == POLY_TYPE)).map
    (fun r => loads r.poly)

/-- Outcome of the WKT loop (source lines 30-34): no matching row leaves
`train_polygons = None`; a matching row whose WKT field fails to parse
raises inside the loop; otherwise the parsed polygons are kept. -/
def wkt_step {P : Type} : Option (Except String P) → Except String (Option P)
  | none => .ok none
  | some (.error e) => .error e
  | some (.ok p) => .ok (some p)

/-- The loading prefix of the script as one fallible computation: each
`match` is a point where the Python run raises; no arm recovers. -/
def run_script_load {P I : Type} (grid_csv : Option (List GridRow))
    (wkt_csv : Option (List WktRow)) (tif_file : Option I)
    (loads : String → Except String P) : Except String (ℚ × ℚ × P × I) :=
  match open_file grid_csv with
  | .error e => .error e
  | .ok grid_rows =>
    match open_file wkt_csv with
    | .error e => .error e
    | .ok wkt_rows =>
      match wkt_step (load_train_polygons wkt_rows loads) with
      | .error e => .error e
      | .ok train_polygons =>
        match open_file tif_file with
        | .error e => .error e
        | .ok img =>
          match load_grid_size grid_rows with
          | none => .error "TypeError: unsupported operand type(s) for /: NoneType in get_scalers"
          | some scalers =>
            match train_polygons with
            | none => .error "AttributeError: NoneType in shapely.affinity.scale"
            | some polys => .ok (scalers.1, scalers.2, polys, img)

/-- Whether a run ended in an uncaught exception. -/
def is_error {ε α : Type} : Except ε α → Bool
  | .error _ => true
  | .ok _ => false

/-! ### Effect trace (whole script)

The script's interactions with the outside world, in program order: three
reads from hardcoded relative paths, `print` calls, and plots shown on
screen.  The source never mentions `sys.argv` (beyond `sys.maxsize`) or
`os.environ`, so the trace is the same function of any argument vector and
environment. -/

/-- An externally visible effect of the script. -/
inductive Effect
  | readFile (path : String)
  | writeFile (path : String)
  | printOut (line : String)
  | showPlot
deriving Repr, DecidableEq

/-- Whether an effect writes to the filesystem. -/
def Effect.isWrite : Effect → Bool
  | .writeFile _ => true
  | _ => false

/-- The script's effect trace in program order, as a function of the
command line and the environment (neither of which the source consults):
the three `open`/`imread` calls of lines 24, 31 and 37, the five
`plt.show` displays, and the five `print` calls. -/
def script_effects (_argv : List String) (_env : String → Option String) :
    List Effect :=
  [ .readFile "../data/grid_sizes.csv",
    .readFile "../data/train_wkt_v4.csv",
    .readFile ("../data/three_band/" ++ IM_ID ++ ".tif"),
    .showPlot,
    .showPlot,
    .printOut "training...",
    .printOut "average precision",
    .showPlot,
    .showPlot,
    .printOut "Pixel jaccard",
    .showPlot,
    .printOut "Prediction size",
    .printOut "Final jaccard" ]

/-- The paths the script reads, in order. -/
def script_reads (argv : List String) (env : String → Option String) :
    List String :=
  (script_effects argv env).filterMap fun e =>
    match e with
    | .readFile p => some p
    | _ => none

/-! ### Stage order (whole script)

The pipeline stages in the order the script executes them, and the earlier
stages whose outputs each stage consumes (from the source's dataflow:
`train_mask` is built from `train_polygons_scaled`; `pipeline.fit` consumes
`xs` from the image and `ys` from `train_mask`; `predict_proba` consumes
the trained pipeline and `xs`; thresholding consumes `pred_mask`;
`mask_to_polygons` consumes `pred_binary_mask`; the final Jaccard consumes
`final_polygons` and `train_polygons`). -/

/-- A pipeline stage of the script. -/
inductive Stage
  | load
  | rasterize
  | train
  | predict
  | thresholdStage
  | vectorize
  | score
deriving Repr, DecidableEq, BEq

/-- Program order of the stages (source lines 22-191). -/
def script_stages : List Stage :=
  [.load, .rasterize, .train, .predict, .thresholdStage, .vectorize, .score]

/-- The stages whose outputs each stage consumes, read off the source's
variable dataflow. -/
def stage_inputs : Stage → List Stage
  | .load => []
  | .rasterize => [.load]
  | .train => [.load, .rasterize]
  | .predict => [.train, .load]
  | .thresholdStage => [.predict]
  | .vectorize => [.thresholdStage]
  | .score => [.vectorize, .load]

/-! ## Theorems for the specification claims -/

/-- C4: for every execution (any command line, any environment), the
script's effect trace contains no filesystem write: every effect is a read,
a print to standard output, or a plot rendered to the screen. -/
theorem script_writes_nothing (argv : List String)
    (env : String → Option String) :
    ((script_effects argv env).all (fun e => !e.isWrite)) = true ∧
      ((script_effects argv env).all (fun e =>
        match e with
        | .writeFile _ => false
        | .readFile _ => true
        | .printOut _ => true
        | .showPlot => true)) = true :=
  ⟨rfl, rfl⟩

/-- C5: the stages run in the fixed linear order load, rasterize, train,
predict, threshold, vectorize, score, and every input of a stage is a
stage strictly earlier in that order. -/
theorem script_stage_order :
    script_stages =
      [.load, .rasterize, .train, .predict, .thresholdStage, .vectorize, .score] ∧
      (script_stages.all (fun s => (stage_inputs s).all (fun d =>
        script_stages.indexOf d < script_stages.indexOf s))) = true :=
  ⟨rfl, by decide⟩

/-- C6: the script reads exactly the three hardcoded relative paths, and
two runs differing only in command-line arguments or environment read the
same files (indeed produce the same effect trace). -/
theorem script_reads_fixed_paths (argv₁ argv₂ : List String)
    (env₁ env₂ : String → Option String) :
    script_reads argv₁ env₁ =
      ["../data/grid_sizes.csv", "../data/train_wkt_v4.csv",
        "../data/three_band/6120_2_2.tif"] ∧
      script_reads argv₁ env₁ = script_reads argv₂ env₂ ∧
      script_effects argv₁ env₁ = script_effects argv₂ env₂ :=
  ⟨rfl, rfl, rfl⟩

/-- C7: the binary mask is the pointwise comparison of the probability
mask with the hardcoded threshold `0.3`: a pixel is set exactly when its
predicted probability is at least `3 / 10`. -/
theorem pred_binary_mask_threshold (pm : Nat → Nat → ℚ) (i j : Nat) :
    (pred_binary_mask pm i j = true ↔ pm i j ≥ 3 / 10) ∧ threshold = 3 / 10 :=
  ⟨by simp [pred_binary_mask, threshold], rfl⟩

/-- C9: `mask_for_polygons` of an empty collection is the all-zero mask,
and for every collection every entry of the returned mask is `0` or `1`. -/
theorem mask_for_polygons_binary (polygons : List RasterPoly)
    (px : Int × Int) :
    mask_for_polygons [] px = 0 ∧
      (mask_for_polygons polygons px = 0 ∨ mask_for_polygons polygons px = 1) := by
  refine ⟨rfl, ?_⟩
  unfold mask_for_polygons fillPoly
  split
  · exact Or.inl rfl
  · simp only
    split
    · exact Or.inl rfl
    · split
      · exact Or.inr rfl
      · exact Or.inl rfl

/-- C10: with non-degenerate percentiles (`p99 - mins` nonzero on the
entry's channel), every entry of `scale_percentile` lies in `[0, 1]`,
because the result is clipped to that interval. -/
theorem scale_percentile_unit_interval (matrix : Nat × Nat × Nat → ℚ)
    (mins p99 : Nat → ℚ) (idx : Nat × Nat × Nat)
    (hnd : p99 idx.2.2 - mins idx.2.2 ≠ 0) :
    0 ≤ scale_percentile matrix mins p99 idx ∧
      scale_percentile matrix mins p99 idx ≤ 1 := by
  unfold scale_percentile clip01
  exact ⟨le_min (le_max_right _ _) (by norm_num), min_le_right _ _⟩

/-- Witness for C10 at a concrete matrix, percentiles and index. -/
theorem scale_percentile_unit_interval_witness :
    (1 : ℚ) - 0 ≠ 0 ∧
      (0 ≤ scale_percentile (fun _ => 1 / 2) (fun _ => 0) (fun _ => 1) (0, 0, 0) ∧
        scale_percentile (fun _ => 1 / 2) (fun _ => 0) (fun _ => 1) (0, 0, 0) ≤ 1) :=
  ⟨by norm_num,
    scale_percentile_unit_interval (fun _ => 1 / 2) (fun _ => 0) (fun _ => 1)
      (0, 0, 0) (by norm_num)⟩

/-- C8: `mask_to_polygons` always yields a `MultiPolygon`: with no contours
it returns the empty `MultiPolygon`, and when the `buffer(0)` repair
collapses the geometry to a bare `Polygon` the result is re-wrapped into a
singleton `MultiPolygon`. -/
theorem mask_to_polygons_isMulti (contours : List Contour)
    (hierarchy : List Int) (is_valid : List PolyG → Bool)
    (buffer0 : List PolyG → Geometry) (min_area : ℚ) :
    (mask_to_polygons contours hierarchy is_valid buffer0 min_area).isMulti = true ∧
      mask_to_polygons [] hierarchy is_valid buffer0 min_area = .multi [] ∧
      (contours.isEmpty = false →
        is_valid (all_polygons contours hierarchy min_area) = false →
        ∀ p : PolyG, buffer0 (all_polygons contours hierarchy min_area) = .poly p →
          mask_to_polygons contours hierarchy is_valid buffer0 min_area =
            .multi [p]) := by
  refine ⟨?_, rfl, ?_⟩
  · unfold mask_to_polygons
    split
    · rfl
    · simp only
      split
      · rfl
      · split <;> rfl
  · intro hne hval p hb
    simp [mask_to_polygons, hne, hval, hb]

/-- Witness for C8: a single square contour, an `is_valid` that reports the
geometry invalid, and a `buffer0` that collapses it to a bare polygon. -/
theorem mask_to_polygons_isMulti_witness :
    ([Contour.mk [(0, 0), (5, 0), (5, 5), (0, 5)] 25].isEmpty = false) ∧
      mask_to_polygons [Contour.mk [(0, 0), (5, 0), (5, 5), (0, 5)] 25] [-1]
        (fun _ => false) (fun _ => .poly (PolyG.mk [(0, 0)] [])) 10 =
        .multi [PolyG.mk [(0, 0)] []] :=
  ⟨rfl,
    (mask_to_polygons_isMulti [Contour.mk [(0, 0), (5, 0), (5, 5), (0, 5)] 25]
        [-1] (fun _ => false) (fun _ => .poly (PolyG.mk [(0, 0)] [])) 10).2.2
      rfl rfl (PolyG.mk [(0, 0)] []) rfl⟩

/-- Helper for C2: pointwise, `(a && b) + (a && !b) + (!a && b)` counts
exactly the pixels where `a || b`, so the three scalar counts add up to
the size of the union. -/
theorem tp_fp_fn_eq_union (pred truth : List Bool) :
    tp_count pred truth + fp_count pred truth + fn_count pred truth =
      union_count pred truth := by
  induction pred generalizing truth with
  | nil => simp [tp_count, fp_count, fn_count, union_count]
  | cons a pr ih =>
    cases truth with
    | nil => simp [tp_count, fp_count, fn_count, union_count]
    | cons b tr =>
      have h := ih tr
      simp only [tp_count, fp_count, fn_count, union_count,
        List.zipWith_cons_cons, List.countP_cons, id_eq] at h ⊢
      cases a <;> cases b <;> simp <;> omega

/-- C2: the printed pixel Jaccard `tp / (tp + fp + fn)` equals
intersection-over-union for every pair of binary masks of the same shape
with non-empty union. -/
theorem pixel_jaccard_eq_iou (pred truth : List Bool)
    (hlen : pred.length = truth.length)
    (hne : 0 < union_count pred truth) :
    pixel_jaccard pred truth = iou pred truth := by
  unfold pixel_jaccard iou
  rw [tp_fp_fn_eq_union]
  rfl

/-- Witness for C2 at a concrete pair of 3-pixel masks. -/
theorem pixel_jaccard_eq_iou_witness :
    [true, false, true].length = [true, true, false].length ∧
      0 < union_count [true, false, true] [true, true, false] ∧
      pixel_jaccard [true, false, true] [true, true, false] =
        iou [true, false, true] [true, true, false] :=
  ⟨rfl, by decide,
    pixel_jaccard_eq_iou [true, false, true] [true, true, false] rfl (by decide)⟩

/-- C1: in `mask_to_polygons`, a contour whose hierarchy entry has a
parent is recorded as a child (of that parent) and never passes the shell
filter; an index passes the shell filter exactly when it is not a child
and its contour area is at least `min_area`; and every hole of a shell's
polygon comes from a child of that shell whose area is at least
`min_area`. -/
theorem mask_to_polygons_hierarchy_filter (contours : List Contour)
    (hierarchy : List Int) (min_area : ℚ) (idx : Nat)
    (hidx : idx < contours.length) (hlen : hierarchy.length = contours.length) :
    (hierarchy.getD idx (-1) ≠ -1 →
        idx ∈ child_contours hierarchy ∧
        idx ∉ shell_indices contours hierarchy min_area) ∧
      (∀ p : Nat, hierarchy.getD idx (-1) = (p : Int) →
        contours[idx] ∈ cnt_children contours hierarchy p) ∧
      (idx ∈ shell_indices contours hierarchy min_area ↔
        idx ∉ child_contours hierarchy ∧
        min_area ≤ ((contours[idx]?).map Contour.area).getD 0) ∧
      (∀ hole ∈ (polygon_for contours hierarchy min_area idx).holes,
        ∃ c ∈ cnt_children contours hierarchy idx,
          c.points = hole ∧ min_area ≤ c.area) := by
  refine ⟨?_, ?_, ?_, ?_⟩
  · intro h
    have hmem : idx ∈ child_contours hierarchy := by
      simp only [child_contours, List.mem_filter, List.mem_range]
      exact ⟨hlen ▸ hidx, by simpa using h⟩
    refine ⟨hmem, ?_⟩
    intro hsh
    rw [shell_indices, List.mem_filter] at hsh
    have h2 := hsh.2
    simp only [Bool.and_eq_true, Bool.not_eq_true', decide_eq_false_iff_not] at h2
    exact h2.1 hmem
  · intro p hp
    rw [cnt_children, List.mem_filterMap]
    refine ⟨idx, ?_, ?_⟩
    · rw [List.mem_filter]
      refine ⟨List.mem_range.mpr (hlen ▸ hidx), ?_⟩
      simp only [beq_iff_eq]
      exact hp
    · exact List.getElem?_eq_getElem hidx
  · simp only [shell_indices, List.mem_filter, List.mem_range, Bool.and_eq_true,
      Bool.not_eq_true', decide_eq_false_iff_not, decide_eq_true_eq]
    constructor
    · rintro ⟨-, hnc, hle⟩
      exact ⟨hnc, hle⟩
    · rintro ⟨hnc, hle⟩
      exact ⟨hidx, hnc, hle⟩
  · intro hole hmem
    simp only [polygon_for, List.mem_map, List.mem_filter, decide_eq_true_eq] at hmem
    obtain ⟨c, ⟨hc, harea⟩, hpts⟩ := hmem
    exact ⟨c, hc, hpts, harea⟩

/-- Witness for C1: two contours where the second is a hole of the first
(hierarchy `[-1, 0]`); the child is recorded and excluded from the
shells. -/
theorem mask_to_polygons_hierarchy_filter_witness :
    (1 < [Contour.mk [(0, 0)] 25, Contour.mk [(1, 1)] 1].length) ∧
      ([(-1 : Int), 0].getD 1 (-1) ≠ -1) ∧
      (1 ∈ child_contours [(-1 : Int), 0] ∧
        1 ∉ shell_indices [Contour.mk [(0, 0)] 25, Contour.mk [(1, 1)] 1]
          [(-1 : Int), 0] 10) :=
  ⟨by decide, by decide,
    (mask_to_polygons_hierarchy_filter
        [Contour.mk [(0, 0)] 25, Contour.mk [(1, 1)] 1] [(-1 : Int), 0] 10 1
        (by decide) rfl).1 (by decide)⟩

/-- C3: each failure mode of the loading stage — an absent grid, WKT or
image file, a grid CSV with no row for the image id, a WKT CSV with no row
for the image id and class, a malformed WKT field — makes the run end in
an uncaught exception; in the malformed-WKT case the parse error itself is
the script's outcome, so nothing along the way catches or rewrites it. -/
theorem script_load_errors_propagate {P I : Type}
    (grid_csv : Option (List GridRow)) (wkt_csv : Option (List WktRow))
    (tif_file : Option I) (loads : String → Except String P) :
    (grid_csv = none →
        is_error (run_script_load grid_csv wkt_csv tif_file loads) = true) ∧
      (wkt_csv = none →
        is_error (run_script_load grid_csv wkt_csv tif_file loads) = true) ∧
      (tif_file = none →
        is_error (run_script_load grid_csv wkt_csv tif_file loads) = true) ∧
      (∀ rows, grid_csv = some rows → load_grid_size rows = none →
        is_error (run_script_load grid_csv wkt_csv tif_file loads) = true) ∧
      (∀ rows, wkt_csv = some rows → load_train_polygons rows loads = none →
        is_error (run_script_load grid_csv wkt_csv tif_file loads) = true) ∧
      (∀ grows rows e, grid_csv = some grows → wkt_csv = some rows →
        load_train_polygons rows loads = some (.error e) →
        run_script_load grid_csv wkt_csv tif_file loads = .error e) := by
  refine ⟨?_, ?_, ?_, ?_, ?_, ?_⟩
  · rintro rfl
    rfl
  · rintro rfl
    cases grid_csv <;> rfl
  · rintro rfl
    cases grid_csv with
    | none => rfl
    | some grows =>
      cases wkt_csv with
      | none => rfl
      | some rows =>
        cases h : load_train_polygons rows loads with
        | none => simp [run_script_load, open_file, wkt_step, h, is_error]
        | some exc =>
          cases exc <;> simp [run_script_load, open_file, wkt_step, h, is_error]
  · rintro rows rfl hg
    cases wkt_csv with
    | none => rfl
    | some wrows =>
      cases h : load_train_polygons wrows loads with
      | none =>
        cases tif_file <;>
          simp [run_script_load, open_file, wkt_step, h, hg, is_error]
      | some exc =>
        cases exc <;> cases tif_file <;>
          simp [run_script_load, open_file, wkt_step, h, hg, is_error]
  · rintro rows rfl h
    cases grid_csv with
    | none => rfl
    | some grows =>
      cases tif_file with
      | none => simp [run_script_load, open_file, wkt_step, h, is_error]
      | some img =>
        cases hg : load_grid_size grows <;>
          simp [run_script_load, open_file, wkt_step, h, hg, is_error]
  · rintro grows rows e rfl rfl h
    simp [run_script_load, open_file, wkt_step, h]

/-- Witness for C3: a malformed WKT row for the hardcoded image id and
class; the parse error is the script's outcome. -/
theorem script_load_errors_propagate_witness :
    load_train_polygons [WktRow.mk "6120_2_2" "1" "POLYGON (("]
        (fun _ => (.error "WKTReadingError" : Except String Unit)) =
      some (.error "WKTReadingError") ∧
      run_script_load (I := Unit) (some [])
          (some [WktRow.mk "6120_2_2" "1" "POLYGON (("]) (some ())
          (fun _ => (.error "WKTReadingError" : Except String Unit)) =
        .error "WKTReadingError" :=
  ⟨rfl,
    (script_load_errors_propagate (some [])
        (some [WktRow.mk "6120_2_2" "1" "POLYGON (("]) (some ())
        (fun _ => (.error "WKTReadingError" : Except String Unit))).2.2.2.2.2
      [] [WktRow.mk "6120_2_2" "1" "POLYGON (("] "WKTReadingError" rfl rfl rfl⟩

end DstlPipeline
